import Mathlib

/-!
Verification of the user-management and authentication core of the
hexagonal-architecture FastAPI backend.

The Python source is shallowly embedded: pydantic models become structures,
SQLAlchemy-backed persistence becomes explicit state passing over a list of
user rows, raised exceptions become `Except` errors, and the wall clock is an
explicit parameter.  Each definition is translated from the file named in its
doc comment.
-/

/-- Response codes used by `CustomException` call sites across the source
(`app.domain.model.util.response_codes.ResponseCodeEnum`; the module itself is
not among the staged files, so the enum lists exactly the codes the staged
call sites mention). -/
inductive ResponseCode where
  | KO000 | KOD01 | KOD02 | KOU01 | KOU02 | KOU03 | KOU04 | KOG01 | KOG02
deriving DecidableEq, Repr

/-- Domain-visible errors: `CustomException(code)` (from
`app.domain.model.util.custom_exceptions`, whose call sites always pass only a
response code) together with the typed exception hierarchy of
`src/app/domain/model/util/exceptions.py`.  `userNotFound` carries the
optional user id and email exactly as `UserNotFoundException.__init__` does. -/
inductive Err where
  | custom (code : ResponseCode)
  | userNotFound (user_id : Option Int) (email : Option String)
  | duplicateUser (email : String)
  | invalidCredentials
  | invalidTokenError (message : String)
  | expiredToken
  | persistenceFailure
deriving DecidableEq, Repr

/-- Domain user, from `src/app/domain/model/user.py` (pydantic `User`):
optional id, required email, optional password, required ISO creation date,
optional profile and status ids. -/
structure User where
  id : Option Int
  email : String
  password : Option String
  creation_date : String
  profile_id : Option Int
  status_id : Option Int
deriving DecidableEq, Repr

/-- Database row, from
`src/app/infrastructure/driven_adapter/persistence/entity/user_entity.py`
(`UserEntity`): all of email, password and creation_date are non-nullable. -/
structure UserEntity where
  id : Int
  email : String
  password : String
  creation_date : String
  profile_id : Option Int
  status_id : Option Int
deriving DecidableEq, Repr

/-- The users table, threaded explicitly in place of the SQLAlchemy session. -/
abbrev Store := List UserEntity

/-- The wall clock as seen by the use cases: `datetime.now().isoformat()`
yields `local_iso` and `datetime.utcnow().isoformat()` would yield `utc_iso`;
the two differ whenever the server's timezone is not UTC. -/
structure Clock where
  local_iso : String
  utc_iso : String
deriving DecidableEq, Repr

/-- JWT-relevant configuration, from `src/app/application/settings.py`. -/
structure Settings where
  SECRET_KEY : String
  ALGORITHM : String
  ACCESS_TOKEN_EXPIRE_MINUTES : Int
deriving DecidableEq, Repr

/-! ## Credential utility

`src/app/domain/usecase/util/security.py` delegates to passlib's bcrypt
context.  Modelled from the spec: bcrypt is an external library; a bcrypt hash
value records the random salt drawn at hashing time together with the digest
of (salt, plaintext), both of which the real scheme encodes inside the hash
string.  The digest function `dig` is kept abstract: every property proved
below holds for an arbitrary digest. -/

/-- A bcrypt hash value: the salt it was produced with and the digest. -/
structure BcryptHash where
  salt : Nat
  digest : String
deriving DecidableEq, Repr

/-- `hash_password` of `security.py`: hash the plaintext with a fresh salt
(the salt is an explicit parameter standing for the library's random draw). -/
def hash_password (dig : Nat → String → String) (salt : Nat) (plain : String) : BcryptHash :=
  ⟨salt, dig salt plain⟩

/-- `verify_password` of `security.py`: re-hash the plaintext under the salt
recorded in the stored hash and compare digests; total, never throws. -/
def verify_password (dig : Nat → String → String) (plain : String) (h : BcryptHash) : Bool :=
  dig h.salt plain == h.digest

/-! ## Token utility, `src/app/domain/usecase/util/jwt.py` -/

/-- A JSON claim value: the payloads used here hold strings and timestamps. -/
inductive JValue where
  | str (s : String)
  | num (n : Int)
deriving DecidableEq, Repr

/-- A claims dictionary. -/
abbrev Claims := List (String × JValue)

/-- Python dict lookup on the claims payload. -/
def dlookup : Claims → String → Option JValue
  | [], _ => none
  | (k, v) :: rest, key => if k = key then some v else dlookup rest key

/-- Python `dict.update({key: v})`: replace the binding if the key is present,
append it otherwise. -/
def dictUpdate : Claims → String → JValue → Claims
  | [], key, v => [(key, v)]
  | (k, w) :: rest, key, v =>
      if k = key then (key, v) :: rest else (k, w) :: dictUpdate rest key v

/-- An encoded JWT: the signed string determines its payload, the key it was
signed with and the algorithm named in its header. -/
structure EncodedJwt where
  payload : Claims
  key : String
  alg : String
deriving DecidableEq, Repr

/-- Failures of `jwt.decode` (the PyJWT library, modelled from the spec):
an expired `exp` claim raises `ExpiredSignatureError`, every other structural
or signature failure raises an `InvalidTokenError`. -/
inductive JwtError where
  | expiredSignature
  | invalidTokenLib
deriving DecidableEq, Repr

/-- `create_access_token` of `jwt.py`: copy the caller's claims, merge in
`exp = utcnow + ACCESS_TOKEN_EXPIRE_MINUTES` (dict update, so a caller-supplied
`exp` is overwritten) and sign with the configured secret and algorithm.
`now_utc` is the Unix timestamp of `datetime.utcnow()` in seconds. -/
def create_access_token (cfg : Settings) (now_utc : Int) (data : Claims) : EncodedJwt :=
  ⟨dictUpdate data "exp" (.num (now_utc + cfg.ACCESS_TOKEN_EXPIRE_MINUTES * 60)),
   cfg.SECRET_KEY, cfg.ALGORITHM⟩

/-- `jwt.decode(token, key, algorithms)` modelled from the spec: the signature
check (key and allowed algorithm) precedes claim validation; a numeric `exp`
claim in the past raises the expired error, while a non-numeric `exp` — and,
per the spec's "missing claims" failure cause, an absent `exp` — is a
structural failure.  Every token this system issues carries an `exp`, so the
issued-token round trip never reaches the missing-claim branch. -/
def jwt_decode (tok : EncodedJwt) (key : String) (algs : List String) (now : Int) :
    Except JwtError Claims :=
  if algs.contains tok.alg ∧ tok.key = key then
    match dlookup tok.payload "exp" with
    | some (.num e) => if e < now then .error .expiredSignature else .ok tok.payload
    | some (.str _) => .error .invalidTokenLib
    | none => .error .invalidTokenLib
  else .error .invalidTokenLib

/-- `verify_token` of `jwt.py`: decode with the configured secret and
algorithm, mapping `ExpiredSignatureError` to `ExpiredTokenException` and every
other `InvalidTokenError` to `InvalidTokenException` (whose default message is
the one in `exceptions.py`). -/
def verify_token (cfg : Settings) (now : Int) (tok : EncodedJwt) : Except Err Claims :=
  match jwt_decode tok cfg.SECRET_KEY [cfg.ALGORITHM] now with
  | .ok payload => .ok payload
  | .error .expiredSignature => .error .expiredToken
  | .error .invalidTokenLib => .error (.invalidTokenError "Token de autenticación inválido.")

/-! Dictionary lemmas shared by the token proofs. -/

theorem dlookup_dictUpdate_self (d : Claims) (k : String) (v : JValue) :
    dlookup (dictUpdate d k v) k = some v := by
  induction d with
  | nil => simp [dictUpdate, dlookup]
  | cons kv rest ih =>
      obtain ⟨k', w⟩ := kv
      by_cases hk : k' = k
      · simp [dictUpdate, dlookup, hk]
      · simp [dictUpdate, dlookup, hk, ih]

theorem dlookup_dictUpdate_other (d : Claims) (k k' : String) (v : JValue)
    (hne : k' ≠ k) : dlookup (dictUpdate d k v) k' = dlookup d k' := by
  induction d with
  | nil => simp [dictUpdate, dlookup, Ne.symm hne]
  | cons kv rest ih =>
      obtain ⟨k0, w⟩ := kv
      by_cases hk : k0 = k
      · subst hk
        simp [dictUpdate, dlookup, Ne.symm hne]
      · simp only [dictUpdate, hk, if_false]
        by_cases hk' : k0 = k'
        · simp [dlookup, hk']
        · simp [dlookup, hk', ih]

/-! ## Persistence layer

`src/app/infrastructure/driven_adapter/persistence/repository/user_repository.py`
(`UserRepository`) and
`src/app/infrastructure/driven_adapter/persistence/service/persistence.py`
(`Persistence`).  `session.query(...).first()` becomes `List.find?` on the
store; a raised `CustomException` becomes an `Except.error`. -/

/-- `map_entity_to_user` of the persistence `user_mapper.py`: a row always
has an id and a password, so both come back as `some`. -/
def map_entity_to_user (e : UserEntity) : User :=
  { id := some e.id, email := e.email, password := some e.password,
    creation_date := e.creation_date, profile_id := e.profile_id,
    status_id := e.status_id }

/-- `Persistence.get_user_by_email` re-applies `map_entity_to_user` to the
`User` the repository already mapped; on a `User` object the mapper reads the
same six attributes back (`str` of a string is itself), so this second pass is
the identity rebuild below. -/
def remap_user_fields (u : User) : User :=
  { id := u.id, email := u.email, password := u.password,
    creation_date := u.creation_date, profile_id := u.profile_id,
    status_id := u.status_id }

/-- `UserRepository.get_user_by_email`: first row whose email matches, raising
`CustomException(KOU02)` when there is none. -/
def repo_get_user_by_email (s : Store) (email : String) : Except Err User :=
  match s.find? (fun e => e.email == email) with
  | some e => .ok (map_entity_to_user e)
  | none => .error (.custom .KOU02)

/-- `UserRepository.get_user_by_id`: first row whose id matches, raising
`CustomException(KOU02)` when there is none. -/
def repo_get_user_by_id (s : Store) (user_id : Int) : Except Err User :=
  match s.find? (fun e => e.id == user_id) with
  | some e => .ok (map_entity_to_user e)
  | none => .error (.custom .KOU02)

/-- `Persistence.get_user_by_email`: delegate to the repository (whose
not-found `CustomException` propagates through the re-raise) and re-map the
result. -/
def persistence_get_user_by_email (s : Store) (email : String) : Except Err User :=
  match repo_get_user_by_email s email with
  | .ok u => .ok (remap_user_fields u)
  | .error e => .error e

/-- `Persistence.get_user_by_id`: same shape as the email lookup. -/
def persistence_get_user_by_id (s : Store) (user_id : Int) : Except Err User :=
  match repo_get_user_by_id s user_id with
  | .ok u => .ok (remap_user_fields u)
  | .error e => .error e

/-- `map_update_to_entity` of the persistence `user_mapper.py`, as invoked by
`Persistence.update_user`: the "entity" it mutates is in fact the `User` the
repository's `get_user_by_id` returned.  The id is copied unconditionally;
email and password only when truthy (non-empty / not None); profile and status
ids only when not None and nonzero. -/
def map_update_to_entity (user_update : User) (target : User) : User :=
  { target with
    id := user_update.id,
    email := if user_update.email ≠ "" then user_update.email else target.email,
    password :=
      match user_update.password with
      | some p => if p ≠ "" then some p else target.password
      | none => target.password,
    profile_id :=
      match user_update.profile_id with
      | some pid => if pid ≠ 0 then some pid else target.profile_id
      | none => target.profile_id,
    status_id :=
      match user_update.status_id with
      | some sid => if sid ≠ 0 then some sid else target.status_id
      | none => target.status_id }

/-- Replace the first row with the given id (the row object `first()` returned
is mutated in place and committed). -/
def storeReplace : Store → Int → UserEntity → Store
  | [], _, _ => []
  | e :: rest, i, e' => if e.id == i then e' :: rest else e :: storeReplace rest i e'

/-- `UserRepository.update_user`: fetch the row by id (raising
`CustomException(KOD02)` when absent), overwrite email and password when
truthy and profile/status ids when not None and nonzero, commit, and return
the mapped row. -/
def repo_update_user (s : Store) (user : User) : Except Err (Store × User) :=
  match user.id with
  | none => .error (.custom .KOD02)
  | some i =>
    match s.find? (fun e => e.id == i) with
    | none => .error (.custom .KOD02)
    | some e =>
      let e' : UserEntity :=
        { e with
          email := if user.email ≠ "" then user.email else e.email,
          password :=
            match user.password with
            | some p => if p ≠ "" then p else e.password
            | none => e.password,
          profile_id :=
            match user.profile_id with
            | some pid => if pid ≠ 0 then some pid else e.profile_id
            | none => e.profile_id,
          status_id :=
            match user.status_id with
            | some sid => if sid ≠ 0 then some sid else e.status_id
            | none => e.status_id }
      .ok (storeReplace s i e', map_entity_to_user e')

/-- `Persistence.update_user`: look the user up by id through the repository
(whose `CustomException(KOU02)` for an absent row propagates before the
service's own not-found check can run), merge the update into the fetched
object with `map_update_to_entity`, and hand the merged object to the
repository's update. -/
def persistence_update_user (s : Store) (user : User) : Except Err (Store × User) :=
  match user.id with
  | none => .error (.custom .KOU02)
  | some i =>
    match s.find? (fun e => e.id == i) with
    | none => .error (.custom .KOU02)
    | some e =>
      repo_update_user s (map_update_to_entity user (map_entity_to_user e))

/-! ## Use cases

`src/app/domain/usecase/user_usecase.py` and
`src/app/domain/usecase/auth_usecase.py`.  The hashing primitive reaches the
use case as an abstract `hp : String → String` (passlib's `pwd_context.hash`
with the salt drawn in that call) and verification as
`vp : String → String → Bool`; the persistence gateway is a function
parameter where the claim is about what crosses the boundary.  Python mutates
the caller's `User` argument in place, so each writing use case returns the
argument's final state alongside the gateway outcome. -/

/-- `UserUseCase.create_user`: overwrite `creation_date` with
`datetime.now().isoformat()` (the local-time clock reading), replace
`password` with its hash, then delegate to the gateway.  A `None` password
makes `hash_password` raise, which the generic handler wraps into
`CustomException(KOG01)` after `creation_date` was already mutated. -/
def user_create_user (hp : String → String) (gw : User → Except Err User)
    (clk : Clock) (user : User) : User × Except Err User :=
  let u1 := { user with creation_date := clk.local_iso }
  match u1.password with
  | none => (u1, .error (.custom .KOG01))
  | some p =>
    let u2 := { u1 with password := some (hp p) }
    (u2, gw u2)

/-- `UserUseCase.get_user`: search by email when the email is truthy and not
the placeholder `"default@example.com"`; otherwise by id when the id is truthy
(not None and nonzero); otherwise raise `CustomException(KOU02)`. -/
def user_get_user (s : Store) (user : User) : Except Err User :=
  if user.email ≠ "" ∧ user.email ≠ "default@example.com" then
    persistence_get_user_by_email s user.email
  else
    match user.id with
    | some i =>
      if i ≠ 0 then persistence_get_user_by_id s i else .error (.custom .KOU02)
    | none => .error (.custom .KOU02)

/-- `UserUseCase.update_user` against an abstract gateway: hash the password
in place when one is supplied (`is not None`), then delegate. -/
def user_update_user (hp : String → String) (gw : User → Except Err (Store × User))
    (user : User) : User × Except Err (Store × User) :=
  match user.password with
  | some p =>
    let u' := { user with password := some (hp p) }
    (u', gw u')
  | none => (user, gw user)

/-- `AuthUseCase.authenticate_user`: fetch the user by the supplied email via
the persistence gateway (a failure there, including the repository's not-found
`CustomException(KOU02)`, re-raises); then `if user and verify_password(...)`
— `user` is always truthy — return `create_access_token({"sub": user.email})`
on a match and `None` on a mismatch.  `verify_password` on a `None` password
raises a `TypeError` which the generic handler wraps into
`CustomException(KOG01)`. -/
def authenticate_user (vp : String → String → Bool) (cfg : Settings) (now_utc : Int)
    (s : Store) (user : User) : Except Err (Option EncodedJwt) :=
  match persistence_get_user_by_email s user.email with
  | .error e => .error e
  | .ok user_validated =>
    match user.password, user_validated.password with
    | some p, some stored =>
      if vp p stored then
        .ok (some (create_access_token cfg now_utc [("sub", .str user.email)]))
      else
        .ok none
    | _, _ => .error (.custom .KOG01)

/-- Helper: the persistence service's second pass of `map_entity_to_user`
over an already-mapped `User` changes nothing. -/
theorem remap_user_fields_id (u : User) : remap_user_fields u = u := rfl

/-! ## Claim C8: password hashing round trip -/

/-- Claim C8: for every digest function, salt draw and plaintext P,
`verify_password P (hash_password P)` is true; and in general
`verify_password` returns true exactly when the plaintext re-hashes (under
the salt recorded in the stored hash) to the stored digest, returning false —
not throwing — on a mismatch. -/
theorem C8_verify_password_roundtrip (dig : Nat → String → String) (salt : Nat)
    (P : String) :
    verify_password dig P (hash_password dig salt P) = true ∧
    (∀ plain h, verify_password dig plain h = true ↔ dig h.salt plain = h.digest) ∧
    (∀ plain h, dig h.salt plain ≠ h.digest → verify_password dig plain h = false) := by
  refine ⟨?_, ?_, ?_⟩
  · simp [verify_password, hash_password]
  · intro plain h
    simp [verify_password]
  · intro plain h hne
    simp [verify_password, hne]

/-! ## Claim C5: token creation / verification round trip -/

/-- Claim C5 counterexample: the claim fails as stated because `dict.update`
overwrites a caller-supplied `exp` claim.  With claims `{"exp": 5}`, secret
"secret", HS256 and a 30-minute window, the token issued at time 0 and
verified at time 10 decodes to a payload whose `exp` is 1800, so the payload
does not contain the caller's key-value pair `("exp", 5)`. -/
theorem C5_counterexample :
    verify_token { SECRET_KEY := "secret", ALGORITHM := "HS256", ACCESS_TOKEN_EXPIRE_MINUTES := 30 } 10
        (create_access_token { SECRET_KEY := "secret", ALGORITHM := "HS256", ACCESS_TOKEN_EXPIRE_MINUTES := 30 } 0
          [("exp", JValue.num 5)]) =
      .ok [("exp", JValue.num 1800)] ∧
    dlookup [("exp", JValue.num 1800)] "exp" ≠ some (JValue.num 5) := by
  constructor
  · rfl
  · decide

/-- Claim C5 (amended): verifying a token within its expiry window, under the
settings it was created with, returns the payload `dictUpdate C "exp" ...`:
it contains every key-value pair of C other than a caller-supplied `exp`
(which creation overwrites), plus an `exp` claim equal to the issuance time
plus `ACCESS_TOKEN_EXPIRE_MINUTES` minutes. -/
theorem C5_token_roundtrip (cfg : Settings) (issue now : Int) (C : Claims)
    (hnow : now ≤ issue + cfg.ACCESS_TOKEN_EXPIRE_MINUTES * 60) :
    verify_token cfg now (create_access_token cfg issue C) =
      .ok (dictUpdate C "exp" (.num (issue + cfg.ACCESS_TOKEN_EXPIRE_MINUTES * 60))) ∧
    (∀ k v, k ≠ "exp" → dlookup C k = some v →
      dlookup (dictUpdate C "exp" (.num (issue + cfg.ACCESS_TOKEN_EXPIRE_MINUTES * 60))) k =
        some v) ∧
    dlookup (dictUpdate C "exp" (.num (issue + cfg.ACCESS_TOKEN_EXPIRE_MINUTES * 60))) "exp" =
      some (.num (issue + cfg.ACCESS_TOKEN_EXPIRE_MINUTES * 60)) := by
  refine ⟨?_, ?_, dlookup_dictUpdate_self _ _ _⟩
  · unfold verify_token jwt_decode create_access_token
    simp [dlookup_dictUpdate_self, not_lt.mpr hnow]
  · intro k v hk hv
    rw [dlookup_dictUpdate_other C "exp" k _ hk, hv]

/-- Claim C5 witness: the round trip at concrete settings, issuance time 0,
verification time 100 and claims `{"sub": "a@b.com"}`. -/
theorem C5_token_roundtrip_witness :
    verify_token { SECRET_KEY := "secret", ALGORITHM := "HS256", ACCESS_TOKEN_EXPIRE_MINUTES := 30 } 100
        (create_access_token { SECRET_KEY := "secret", ALGORITHM := "HS256", ACCESS_TOKEN_EXPIRE_MINUTES := 30 } 0
          [("sub", JValue.str "a@b.com")]) =
      .ok (dictUpdate [("sub", JValue.str "a@b.com")] "exp" (.num (0 + 30 * 60))) ∧
    (∀ k v, k ≠ "exp" → dlookup [("sub", JValue.str "a@b.com")] k = some v →
      dlookup (dictUpdate [("sub", JValue.str "a@b.com")] "exp" (.num (0 + 30 * 60))) k =
        some v) ∧
    dlookup (dictUpdate [("sub", JValue.str "a@b.com")] "exp" (.num (0 + 30 * 60))) "exp" =
      some (.num (0 + 30 * 60)) :=
  C5_token_roundtrip
    { SECRET_KEY := "secret", ALGORITHM := "HS256", ACCESS_TOKEN_EXPIRE_MINUTES := 30 }
    0 100 [("sub", JValue.str "a@b.com")] (by decide)

/-! ## Claim C6: verify_token error taxonomy -/

/-- Claim C6: `verify_token` fails with the expired-token exception exactly
when the token is validly signed (right algorithm and secret) but its numeric
`exp` claim is in the past; it fails with the invalid-token exception exactly
on every other failure — signature/algorithm mismatch, a structurally
non-numeric `exp`, or a missing `exp` claim; otherwise it returns the decoded
claims payload. -/
theorem C6_verify_token_taxonomy (cfg : Settings) (now : Int) (tok : EncodedJwt) :
    (verify_token cfg now tok = .error .expiredToken ↔
      (tok.alg = cfg.ALGORITHM ∧ tok.key = cfg.SECRET_KEY ∧
        ∃ e, dlookup tok.payload "exp" = some (.num e) ∧ e < now)) ∧
    (verify_token cfg now tok = .ok tok.payload ↔
      (tok.alg = cfg.ALGORITHM ∧ tok.key = cfg.SECRET_KEY ∧
        ∃ e, dlookup tok.payload "exp" = some (.num e) ∧ now ≤ e)) ∧
    (verify_token cfg now tok = .error (.invalidTokenError "Token de autenticación inválido.") ↔
      (¬(tok.alg = cfg.ALGORITHM ∧ tok.key = cfg.SECRET_KEY) ∨
        dlookup tok.payload "exp" = none ∨
        ∃ m, dlookup tok.payload "exp" = some (.str m))) := by
  by_cases halg : tok.alg = cfg.ALGORITHM
  · by_cases hkey : tok.key = cfg.SECRET_KEY
    · rcases hexp : dlookup tok.payload "exp" with _ | jv
      · simp [verify_token, jwt_decode, halg, hkey, hexp]
      · rcases jv with m | e
        · simp [verify_token, jwt_decode, halg, hkey, hexp]
        · by_cases hlt : e < now
          · simp [verify_token, jwt_decode, halg, hkey, hexp, hlt, not_le.mpr hlt]
          · simp [verify_token, jwt_decode, halg, hkey, hexp, hlt, not_lt.mp hlt]
    · simp [verify_token, jwt_decode, halg, hkey]
  · simp [verify_token, jwt_decode, halg]

/-! ## Claims C2, C7, C9: the write paths of the user use case -/

/-- Claim C2: on every write path, the password that crosses the gateway
boundary is the hash of the supplied plaintext, never the plaintext: create
always hashes, update hashes exactly when a password is supplied and passes
the user unchanged (password still absent) when none is. -/
theorem C2_password_hashed_on_write (hp : String → String)
    (gw : User → Except Err User) (gw2 : User → Except Err (Store × User))
    (clk : Clock) (user : User) (p : String) (hpwd : user.password = some p) :
    (user_create_user hp gw clk user).2 =
      gw { user with creation_date := clk.local_iso, password := some (hp p) } ∧
    (user_update_user hp gw2 user).2 = gw2 { user with password := some (hp p) } ∧
    (∀ u2 : User, u2.password = none → (user_update_user hp gw2 u2).2 = gw2 u2) := by
  refine ⟨?_, ?_, ?_⟩
  · simp [user_create_user, hpwd]
  · simp [user_update_user, hpwd]
  · intro u2 h2
    simp [user_update_user, h2]

/-- Claim C2 witness: concrete hashing function, identity gateways, and a
user carrying the plaintext "password1". -/
theorem C2_password_hashed_on_write_witness :
    (user_create_user (fun s => "H" ++ s) Except.ok
        { local_iso := "2024-01-01T07:00:00", utc_iso := "2024-01-01T12:00:00" }
        { id := none, email := "a@b.com", password := some "password1",
          creation_date := "caller", profile_id := none, status_id := none }).2 =
      Except.ok { id := none, email := "a@b.com", password := some ("H" ++ "password1"),
                  creation_date := "2024-01-01T07:00:00", profile_id := none, status_id := none } ∧
    (user_update_user (fun s => "H" ++ s) (fun u => Except.ok ([], u))
        { id := none, email := "a@b.com", password := some "password1",
          creation_date := "caller", profile_id := none, status_id := none }).2 =
      Except.ok ([], { id := none, email := "a@b.com", password := some ("H" ++ "password1"),
                       creation_date := "caller", profile_id := none, status_id := none }) ∧
    (∀ u2 : User, u2.password = none →
      (user_update_user (fun s => "H" ++ s) (fun u => Except.ok ([], u)) u2).2 =
        Except.ok ([], u2)) :=
  C2_password_hashed_on_write (fun s => "H" ++ s) Except.ok (fun u => Except.ok ([], u))
    { local_iso := "2024-01-01T07:00:00", utc_iso := "2024-01-01T12:00:00" }
    { id := none, email := "a@b.com", password := some "password1",
      creation_date := "caller", profile_id := none, status_id := none }
    "password1" rfl

/-- Claim C7 counterexample: `create_user` reads `datetime.now().isoformat()`
— the local clock — not the UTC clock.  With a clock whose local reading is
"2024-01-01T07:00:00" and whose UTC reading is "2024-01-01T12:00:00", the user
handed to the gateway carries the local reading, so the persisted
creation_date is not the current timestamp in UTC form (it is also not the
caller-supplied "2020-05-05T00:00:00"). -/
theorem C7_counterexample :
    (user_create_user (fun s => "H" ++ s) Except.ok
        { local_iso := "2024-01-01T07:00:00", utc_iso := "2024-01-01T12:00:00" }
        { id := none, email := "a@b.com", password := some "password1",
          creation_date := "2020-05-05T00:00:00", profile_id := none, status_id := none }).2 =
      Except.ok { id := none, email := "a@b.com", password := some "Hpassword1",
                  creation_date := "2024-01-01T07:00:00", profile_id := none, status_id := none } ∧
    ("2024-01-01T07:00:00" : String) ≠ "2024-01-01T12:00:00" ∧
    ("2024-01-01T07:00:00" : String) ≠ "2020-05-05T00:00:00" := by
  refine ⟨rfl, by decide, by decide⟩

/-- Claim C7 (amended): `create_user` sets `creation_date` to the current
local-clock ISO-8601 timestamp (`datetime.now().isoformat()`, not necessarily
UTC) before delegating to the gateway; the value is independent of whatever
creation_date the caller supplied, so a caller-supplied value is never the
one persisted. -/
theorem C7_creation_date_set_by_usecase (hp : String → String)
    (gw : User → Except Err User) (clk : Clock) (user : User) (p : String)
    (hpwd : user.password = some p) :
    (user_create_user hp gw clk user).2 =
      gw { user with creation_date := clk.local_iso, password := some (hp p) } ∧
    (User.creation_date { user with creation_date := clk.local_iso, password := some (hp p) } =
      clk.local_iso) ∧
    (∀ d : String,
      (user_create_user hp gw clk { user with creation_date := d }).2 =
        (user_create_user hp gw clk user).2) := by
  refine ⟨?_, rfl, ?_⟩
  · simp [user_create_user, hpwd]
  · intro d
    simp [user_create_user, hpwd]

/-- Claim C7 witness: the amended statement at a concrete clock, gateway and
user. -/
theorem C7_creation_date_witness :
    (user_create_user (fun s => "H" ++ s) Except.ok
        { local_iso := "L", utc_iso := "U" }
        { id := none, email := "a@b.com", password := some "password1",
          creation_date := "caller", profile_id := none, status_id := none }).2 =
      Except.ok { id := none, email := "a@b.com", password := some ("H" ++ "password1"),
                  creation_date := "L", profile_id := none, status_id := none } ∧
    (User.creation_date { id := none, email := "a@b.com", password := some ("H" ++ "password1"),
                          creation_date := "L", profile_id := none, status_id := none } = "L") ∧
    (∀ d : String,
      (user_create_user (fun s => "H" ++ s) Except.ok { local_iso := "L", utc_iso := "U" }
          { id := none, email := "a@b.com", password := some "password1",
            creation_date := d, profile_id := none, status_id := none }).2 =
        (user_create_user (fun s => "H" ++ s) Except.ok { local_iso := "L", utc_iso := "U" }
          { id := none, email := "a@b.com", password := some "password1",
            creation_date := "caller", profile_id := none, status_id := none }).2) :=
  C7_creation_date_set_by_usecase (fun s => "H" ++ s) Except.ok
    { local_iso := "L", utc_iso := "U" }
    { id := none, email := "a@b.com", password := some "password1",
      creation_date := "caller", profile_id := none, status_id := none }
    "password1" rfl

/-- Claim C9: both writing use cases mutate the caller's `User` argument in
place (reference semantics of the pydantic object): after `create_user` the
caller's object has `creation_date := now` and `password := hash`, and after
`update_user` with a supplied password the caller's object has
`password := hash`.  The first component of each embedded use case is the
argument's post-call state. -/
theorem C9_argument_mutated_in_place (hp : String → String)
    (gw : User → Except Err User) (gw2 : User → Except Err (Store × User))
    (clk : Clock) (user : User) (p : String) (hpwd : user.password = some p) :
    (user_create_user hp gw clk user).1 =
      { user with creation_date := clk.local_iso, password := some (hp p) } ∧
    (user_update_user hp gw2 user).1 = { user with password := some (hp p) } := by
  constructor
  · simp [user_create_user, hpwd]
  · simp [user_update_user, hpwd]

/-- Claim C9 witness: the caller's object after each call, at a concrete
hashing function, gateways, clock and user. -/
theorem C9_argument_mutated_witness :
    (user_create_user (fun s => "H" ++ s) Except.ok
        { local_iso := "L", utc_iso := "U" }
        { id := some 1, email := "a@b.com", password := some "password1",
          creation_date := "caller", profile_id := none, status_id := none }).1 =
      { id := some 1, email := "a@b.com", password := some ("H" ++ "password1"),
        creation_date := "L", profile_id := none, status_id := none } ∧
    (user_update_user (fun s => "H" ++ s) (fun u => Except.ok ([], u))
        { id := some 1, email := "a@b.com", password := some "password1",
          creation_date := "caller", profile_id := none, status_id := none }).1 =
      { id := some 1, email := "a@b.com", password := some ("H" ++ "password1"),
        creation_date := "caller", profile_id := none, status_id := none } :=
  C9_argument_mutated_in_place (fun s => "H" ++ s) Except.ok (fun u => Except.ok ([], u))
    { local_iso := "L", utc_iso := "U" }
    { id := some 1, email := "a@b.com", password := some "password1",
      creation_date := "caller", profile_id := none, status_id := none }
    "password1" rfl

/-! ## Claims C3 and C10: get_user resolution policy -/

/-- Helper: a failing email lookup through the persistence service raises
exactly the bare `CustomException(KOU02)`. -/
theorem persistence_get_by_email_error (s : Store) (email : String) (e : Err)
    (h : persistence_get_user_by_email s email = .error e) : e = .custom .KOU02 := by
  unfold persistence_get_user_by_email repo_get_user_by_email at h
  rcases hf : s.find? (fun x => x.email == email) with _ | row
  · rw [hf] at h
    simpa using h.symm
  · rw [hf] at h
    simp at h

/-- Helper: a failing id lookup through the persistence service raises
exactly the bare `CustomException(KOU02)`. -/
theorem persistence_get_by_id_error (s : Store) (user_id : Int) (e : Err)
    (h : persistence_get_user_by_id s user_id = .error e) : e = .custom .KOU02 := by
  unfold persistence_get_user_by_id repo_get_user_by_id at h
  rcases hf : s.find? (fun x => x.id == user_id) with _ | row
  · rw [hf] at h
    simpa using h.symm
  · rw [hf] at h
    simp at h

/-- Claim C3 counterexample: with no email criterion (the placeholder) and
id 5 on an empty store, `get_user` raises the bare `CustomException(KOU02)`
— a response code only — not an error carrying the id and the email
(`UserNotFoundException(user_id, email)` is the codebase's only error shape
that could carry them, and it is not what is raised). -/
theorem C3_counterexample :
    user_get_user []
        { id := some 5, email := "default@example.com", password := none,
          creation_date := "d", profile_id := none, status_id := none } =
      .error (.custom .KOU02) ∧
    Err.custom .KOU02 ≠ .userNotFound (some 5) (some "default@example.com") := by
  constructor
  · rfl
  · decide

/-- Claim C3 (amended): `get_user` searches by email when a non-empty,
non-placeholder email is present; otherwise by id when a truthy (present and
nonzero) id is present; when neither criterion is usable it raises
`CustomException(KOU02)`; and every failure of the operation is that same
bare code, carrying neither the id nor the email. -/
theorem C3_get_user_resolution (s : Store) (u : User) :
    (u.email ≠ "" → u.email ≠ "default@example.com" →
      user_get_user s u = persistence_get_user_by_email s u.email) ∧
    (∀ i, (u.email = "" ∨ u.email = "default@example.com") → u.id = some i → i ≠ 0 →
      user_get_user s u = persistence_get_user_by_id s i) ∧
    ((u.email = "" ∨ u.email = "default@example.com") → (u.id = none ∨ u.id = some 0) →
      user_get_user s u = .error (.custom .KOU02)) ∧
    (∀ e, user_get_user s u = .error e → e = .custom .KOU02) := by
  refine ⟨?_, ?_, ?_, ?_⟩
  · intro h1 h2
    simp [user_get_user, h1, h2]
  · intro i hmail hid hnz
    rcases hmail with hmail | hmail <;>
      simp [user_get_user, hmail, hid, hnz]
  · intro hmail hid
    rcases hmail with hmail | hmail <;> rcases hid with hid | hid <;>
      simp [user_get_user, hmail, hid]
  · intro e he
    unfold user_get_user at he
    by_cases hm : u.email ≠ "" ∧ u.email ≠ "default@example.com"
    · rw [if_pos hm] at he
      exact persistence_get_by_email_error s u.email e he
    · rw [if_neg hm] at he
      split at he
      · split at he
        · exact persistence_get_by_id_error s _ e he
        · simpa using he.symm
      · simpa using he.symm

/-- Claim C3 witness: the amended characterization, applied at a concrete
store and criteria object (search by the non-placeholder email "x@y.com"). -/
theorem C3_get_user_resolution_witness :
    user_get_user [{ id := 1, email := "x@y.com", password := "h",
                     creation_date := "d", profile_id := none, status_id := none }]
        { id := none, email := "x@y.com", password := none,
          creation_date := "d", profile_id := none, status_id := none } =
      persistence_get_user_by_email
        [{ id := 1, email := "x@y.com", password := "h",
           creation_date := "d", profile_id := none, status_id := none }] "x@y.com" :=
  (C3_get_user_resolution
    [{ id := 1, email := "x@y.com", password := "h",
       creation_date := "d", profile_id := none, status_id := none }]
    { id := none, email := "x@y.com", password := none,
      creation_date := "d", profile_id := none, status_id := none }).1
    (by decide) (by decide)

/-- Claim C10: when the criteria email is exactly the placeholder
"default@example.com", `get_user` never searches by email: with a truthy id it
searches by id, and otherwise it fails with `CustomException(KOU02)` — in
particular this happens whatever the store holds, so a user whose real stored
email is the placeholder is unreachable by email through this operation. -/
theorem C10_sentinel_email_never_searched (s : Store) (u : User)
    (hmail : u.email = "default@example.com") :
    (∀ i, u.id = some i → i ≠ 0 → user_get_user s u = persistence_get_user_by_id s i) ∧
    ((u.id = none ∨ u.id = some 0) → user_get_user s u = .error (.custom .KOU02)) := by
  constructor
  · intro i hid hnz
    simp [user_get_user, hmail, hid, hnz]
  · intro hid
    rcases hid with hid | hid <;> simp [user_get_user, hmail, hid]

/-- Claim C10 witness: a store really containing a user whose stored email is
"default@example.com", and a criteria object with that email and no id: the
lookup still fails with `CustomException(KOU02)` instead of finding the row. -/
theorem C10_sentinel_email_witness :
    user_get_user
        [{ id := 1, email := "default@example.com", password := "h",
           creation_date := "d", profile_id := none, status_id := none }]
        { id := none, email := "default@example.com", password := none,
          creation_date := "d", profile_id := none, status_id := none } =
      .error (.custom .KOU02) :=
  (C10_sentinel_email_never_searched
    [{ id := 1, email := "default@example.com", password := "h",
       creation_date := "d", profile_id := none, status_id := none }]
    { id := none, email := "default@example.com", password := none,
      creation_date := "d", profile_id := none, status_id := none } rfl).2 (Or.inl rfl)

/-! ## Claim C4: partial-update merge semantics -/

/-- Claim C4: updating through the use case and persistence service changes
only the fields the input supplies (truthy email/password, present-and-nonzero
profile/status ids) and leaves every unset field — and always the id and the
creation date — unchanged in the stored row; a supplied status becomes the
supplied value and a supplied password is stored hashed. -/
theorem C4_partial_update_frame (hp : String → String) (s : Store) (user : User)
    (i : Int) (e : UserEntity) (hid : user.id = some i)
    (hfind : s.find? (fun x => x.id == i) = some e) :
    ∃ e', (user_update_user hp (persistence_update_user s) user).2 =
        .ok (storeReplace s i e', map_entity_to_user e') ∧
      e'.id = e.id ∧ e'.creation_date = e.creation_date ∧
      (user.email = "" → e'.email = e.email) ∧
      (user.email ≠ "" → e'.email = user.email) ∧
      (user.password = none → e'.password = e.password) ∧
      (∀ p, user.password = some p → hp p ≠ "" → e'.password = hp p) ∧
      (user.profile_id = none → e'.profile_id = e.profile_id) ∧
      (∀ v, user.profile_id = some v → v ≠ 0 → e'.profile_id = some v) ∧
      (user.status_id = none → e'.status_id = e.status_id) ∧
      (∀ v, user.status_id = some v → v ≠ 0 → e'.status_id = some v) := by
  rcases hpc : user.password with _ | p
  all_goals
    simp only [user_update_user, persistence_update_user, repo_update_user,
      map_update_to_entity, map_entity_to_user, hpc, hid, hfind]
  · refine ⟨_, rfl, rfl, rfl, ?_, ?_, ?_, ?_, ?_, ?_, ?_, ?_⟩
    · intro h
      simp [h]
    · intro h
      simp [h]
    · intro _
      simp
    · intro q hq
      simp [hpc] at hq
    · intro h
      simp only [h]
      rcases hpf : e.profile_id with _ | v <;> simp [hpf]
    · intro v hv hnz
      simp [hv, hnz]
    · intro h
      simp only [h]
      rcases hst : e.status_id with _ | v <;> simp [hst]
    · intro v hv hnz
      simp [hv, hnz]
  · refine ⟨_, rfl, rfl, rfl, ?_, ?_, ?_, ?_, ?_, ?_, ?_, ?_⟩
    · intro h
      simp [h]
    · intro h
      simp [h]
    · intro h
      exact Option.noConfusion h
    · intro q hq hne
      obtain rfl : p = q := by injection hq
      simp [hne]
    · intro h
      simp only [h]
      rcases hpf : e.profile_id with _ | v <;> simp [hpf]
    · intro v hv hnz
      simp [hv, hnz]
    · intro h
      simp only [h]
      rcases hst : e.status_id with _ | v <;> simp [hst]
    · intro v hv hnz
      simp [hv, hnz]

/-- Sample data for the C4 witness: an existing row and an update supplying
only the id and a new status. -/
def c4_hash : String → String := fun s => "H" ++ s

/-- The C4 witness store: one persisted user. -/
def c4_entity : UserEntity :=
  { id := 1, email := "a@b.com", password := "oldhash",
    creation_date := "2024-01-01", profile_id := some 1, status_id := some 1 }

/-- The C4 witness update input: only id and status_id supplied. -/
def c4_update : User :=
  { id := some 1, email := "", password := none, creation_date := "d",
    profile_id := none, status_id := some 2 }

/-- Claim C4 witness: the frame property at the spec's own concrete instance
— update `{id: 1, status_id: 2}` against a store holding user 1. -/
theorem C4_partial_update_witness :
    ∃ e', (user_update_user c4_hash (persistence_update_user [c4_entity]) c4_update).2 =
        .ok (storeReplace [c4_entity] 1 e', map_entity_to_user e') ∧
      e'.id = c4_entity.id ∧ e'.creation_date = c4_entity.creation_date ∧
      (c4_update.email = "" → e'.email = c4_entity.email) ∧
      (c4_update.email ≠ "" → e'.email = c4_update.email) ∧
      (c4_update.password = none → e'.password = c4_entity.password) ∧
      (∀ p, c4_update.password = some p → c4_hash p ≠ "" → e'.password = c4_hash p) ∧
      (c4_update.profile_id = none → e'.profile_id = c4_entity.profile_id) ∧
      (∀ v, c4_update.profile_id = some v → v ≠ 0 → e'.profile_id = some v) ∧
      (c4_update.status_id = none → e'.status_id = c4_entity.status_id) ∧
      (∀ v, c4_update.status_id = some v → v ≠ 0 → e'.status_id = some v) :=
  C4_partial_update_frame c4_hash [c4_entity] c4_update 1 c4_entity rfl rfl

/-! ## Claim C1: authentication -/

/-- Sample data for the authentication claims. -/
def auth_cfg : Settings :=
  { SECRET_KEY := "secret", ALGORITHM := "HS256", ACCESS_TOKEN_EXPIRE_MINUTES := 30 }

/-- The authentication witness store: one user with a stored hash. -/
def auth_store : Store :=
  [{ id := 1, email := "a@b.com", password := "storedhash",
     creation_date := "d", profile_id := none, status_id := none }]

/-- A concrete verifier: accepts exactly the plaintext "goodpw". -/
def auth_vp : String → String → Bool := fun p _ => p == "goodpw"

/-- Claim C1 counterexample: the two failure causes are distinguishable and
neither is `InvalidCredentialsException`: a wrong password makes
`authenticate_user` return `None` (no exception at all), while an unknown
email propagates the repository's not-found `CustomException(KOU02)`. -/
theorem C1_counterexample :
    authenticate_user auth_vp auth_cfg 0 auth_store
        { id := none, email := "a@b.com", password := some "badpw",
          creation_date := "d", profile_id := none, status_id := none } =
      .ok none ∧
    authenticate_user auth_vp auth_cfg 0 auth_store
        { id := none, email := "x@y.com", password := some "goodpw",
          creation_date := "d", profile_id := none, status_id := none } =
      .error (.custom .KOU02) ∧
    (Except.ok (none : Option EncodedJwt) ≠
      (Except.error (.custom .KOU02) : Except Err (Option EncodedJwt))) ∧
    ((Except.error (.custom .KOU02) : Except Err (Option EncodedJwt)) ≠
      Except.error Err.invalidCredentials) := by
  refine ⟨rfl, rfl, by simp, by simp⟩

/-- Claim C1 (amended): `authenticate_user` propagates any gateway failure
unchanged — in particular the not-found `CustomException(KOU02)` for an
unknown email — and, when the email resolves, returns the token
`create_access_token({"sub": supplied email})` when the supplied plaintext
verifies against the stored hash and `None` (not an exception) when it does
not. -/
theorem C1_authenticate_behaviour (vp : String → String → Bool) (cfg : Settings)
    (now_utc : Int) (s : Store) (user : User) (p : String)
    (hpwd : user.password = some p) :
    (∀ err, persistence_get_user_by_email s user.email = .error err →
      authenticate_user vp cfg now_utc s user = .error err) ∧
    (∀ v stored, persistence_get_user_by_email s user.email = .ok v →
      v.password = some stored →
      authenticate_user vp cfg now_utc s user =
        if vp p stored then
          .ok (some (create_access_token cfg now_utc [("sub", .str user.email)]))
        else .ok none) := by
  constructor
  · intro err herr
    simp [authenticate_user, herr]
  · intro v stored hok hv
    simp [authenticate_user, hok, hpwd, hv]

/-- Claim C1 witness: a successful authentication against the witness store,
yielding exactly the token built from the supplied email. -/
theorem C1_authenticate_witness :
    authenticate_user auth_vp auth_cfg 0 auth_store
        { id := none, email := "a@b.com", password := some "goodpw",
          creation_date := "d", profile_id := none, status_id := none } =
      if auth_vp "goodpw" "storedhash" then
        .ok (some (create_access_token auth_cfg 0 [("sub", .str "a@b.com")]))
      else .ok none :=
  (C1_authenticate_behaviour auth_vp auth_cfg 0 auth_store
      { id := none, email := "a@b.com", password := some "goodpw",
        creation_date := "d", profile_id := none, status_id := none }
      "goodpw" rfl).2
    (map_entity_to_user
      { id := 1, email := "a@b.com", password := "storedhash",
        creation_date := "d", profile_id := none, status_id := none })
    "storedhash" rfl rfl
